import Mathlib

/-!
Shallow embedding of the Morph Fast Apply adapter
(`src/services/morph/MorphService.ts`, `src/services/morph/index.ts`,
`src/services/morph/constants.ts`).

Modelling conventions:
- TypeScript fields that the code guards against `undefined`/`null`
  (via `?.` or explicit checks) are modelled as `Option String`.
- JavaScript exceptions are modelled with `Except`; the single
  `try`/`catch` in `applyEdit` is folded into the result construction:
  a `MorphError` raised inside the `try` is re-raised unchanged
  (the `instanceof MorphError` branch), any other thrown value is
  wrapped by `wrapTransportFailure` (the fallback branch).
- Side effects relevant to the specification (whether a remote request
  was issued, which request was sent, whether `console.warn` fired)
  are returned explicitly in `ApplyEditOutcome`.
-/

namespace Morph

/-- A JavaScript `Error` value as the transport may throw it: only its
`message` matters to the adapter. -/
structure JsError where
  message : String
  deriving Repr, DecidableEq

/-- `MorphError` from `MorphService.ts`: an `Error` subclass carrying a
message and an optional wrapped cause. -/
structure MorphError where
  message : String
  cause : Option JsError
  deriving Repr, DecidableEq

/-- `DEFAULT_MORPH_TIMEOUT_MS` from `constants.ts`. -/
def DEFAULT_MORPH_TIMEOUT_MS : Nat := 30000

/-- `MORPH_FAST_APPLY_MODEL` from `constants.ts`. -/
def MORPH_FAST_APPLY_MODEL : String := "morph-v3-large"

/-- Default base URL, inlined in `createMorphService` and also present in
`DEFAULT_MORPH_SETTINGS` in `constants.ts`. -/
def DEFAULT_MORPH_BASE_URL : String := "https://api.morphllm.com/v1"

/-- `MorphEditRequest` from `MorphService.ts`. The TypeScript interface
types the fields as `string`, but `validateEditRequest` explicitly guards
against `undefined`/`null` values, so each field is an `Option String`
(`none` = absent). -/
structure MorphEditRequest where
  instructions : Option String
  originalContent : Option String
  codeEdit : Option String
  deriving Repr, DecidableEq

/-- `MorphServiceConfig` from `MorphService.ts`. -/
structure MorphServiceConfig where
  apiKey : String
  baseUrl : String
  timeout : Option Nat
  deriving Repr, DecidableEq

/-- The observable configuration of the `OpenAI` client constructed in the
`MorphService` constructor. -/
structure OpenAIClientConfig where
  apiKey : String
  baseURL : String
  timeout : Option Nat
  deriving Repr, DecidableEq

/-- A chat message sent to the remote API. -/
structure ChatMessage where
  role : String
  content : String
  deriving Repr, DecidableEq

/-- The chat-completion request the adapter issues:
`{ model, messages, stream, max_tokens? }`. -/
structure ChatRequest where
  model : String
  messages : List ChatMessage
  stream : Bool
  maxTokens : Option Nat
  deriving Repr, DecidableEq

/-- A message inside a response choice; its `content` may be absent. -/
structure CompletionMessage where
  content : Option String
  deriving Repr, DecidableEq

/-- One choice of the remote response; its `message` may be absent
(the code reads it through `?.`). -/
structure Choice where
  message : Option CompletionMessage
  deriving Repr, DecidableEq

/-- The remote response: an ordered list of choices. -/
structure ChatResponse where
  choices : List Choice
  deriving Repr, DecidableEq

/-- A failure of the transport / remote side: either a thrown JavaScript
`Error`, or a thrown non-`Error` value (JavaScript allows throwing
anything). -/
inductive TransportFailure where
  | thrown (e : JsError)
  | thrownNonError
  deriving Repr, DecidableEq

/-- The transport: one remote chat-completion call, which either returns a
response or fails. -/
abbrev Transport := ChatRequest → Except TransportFailure ChatResponse

/-- JavaScript `String.prototype.trim`: strip leading and trailing
whitespace (modelled with `Char.isWhitespace`), implemented structurally
over the character list so that it evaluates by reduction. -/
def jsTrim (s : String) : String :=
  ⟨((s.data.dropWhile Char.isWhitespace).reverse.dropWhile Char.isWhitespace).reverse⟩

/-- Truthiness of `x?.trim()` for an optional string `x`: `false` when the
string is absent or trims to empty. -/
def optTrimNonempty : Option String → Bool
  | none => false
  | some s => jsTrim s != ""

/-- JavaScript template-literal interpolation of a possibly-absent string
(`undefined` interpolates as the text `"undefined"`). After validation the
fields are always present, so the fallback is unreachable in `applyEdit`. -/
def jsInterp : Option String → String
  | none => "undefined"
  | some s => s

/-- Does `needle` occur starting at some position of `haystack`?
Structural recursion on the haystack. -/
def containsAt (needle : List Char) : List Char → Bool
  | [] => needle.isPrefixOf []
  | c :: rest => needle.isPrefixOf (c :: rest) || containsAt needle rest

/-- `String.prototype.includes` of JavaScript. -/
def strIncludes (haystack needle : String) : Bool :=
  containsAt needle.data haystack.data

/-- The three literal sparse-edit marker spellings checked in
`validateEditRequest`. -/
def hasLazyEditMarker (codeEdit : String) : Bool :=
  strIncludes codeEdit "// ... existing code ..." ||
  strIncludes codeEdit "# ... existing code ..." ||
  strIncludes codeEdit "<!-- ... existing code ... -->"

/-- Message of the `MorphError` thrown when `instructions` is missing or
trims to empty. -/
def INSTRUCTIONS_ERROR_MESSAGE : String :=
  "Instructions are required and cannot be empty"

/-- Message of the `MorphError` thrown when `originalContent` is
`undefined`/`null`. -/
def ORIGINAL_CONTENT_ERROR_MESSAGE : String :=
  "Original content is required (can be empty string for new files)"

/-- Message of the `MorphError` thrown when `codeEdit` is missing or trims
to empty. -/
def CODE_EDIT_ERROR_MESSAGE : String :=
  "Code edit is required and cannot be empty"

/-- The `MorphError` thrown when the remote response has no usable
content. -/
def EMPTY_RESPONSE_ERROR : MorphError :=
  ⟨"Morph API returned empty response", none⟩

/-- `MorphService.validateEditRequest`. Returns the raised `MorphError`
on a failed hard check; on success returns whether the soft sparse-edit
marker check emitted a `console.warn`. -/
def validateEditRequest (request : MorphEditRequest) : Except MorphError Bool :=
  if optTrimNonempty request.instructions = false then
    .error ⟨INSTRUCTIONS_ERROR_MESSAGE, none⟩
  else if request.originalContent = none then
    .error ⟨ORIGINAL_CONTENT_ERROR_MESSAGE, none⟩
  else if optTrimNonempty request.codeEdit = false then
    .error ⟨CODE_EDIT_ERROR_MESSAGE, none⟩
  else if hasLazyEditMarker (jsInterp request.codeEdit) then
    .ok false
  else if 0 < (jsInterp request.originalContent).length then
    .ok true
  else
    .ok false

/-- `MorphService.formatMorphPrompt`: verbatim concatenation of the three
tagged segments, no escaping. -/
def formatMorphPrompt (request : MorphEditRequest) : String :=
  "<instruction>" ++ jsInterp request.instructions ++ "</instruction>\n<code>" ++
    jsInterp request.originalContent ++ "</code>\n<update>" ++
    jsInterp request.codeEdit ++ "</update>"

/-- The chat-completion request `applyEdit` issues: fixed model, the
formatted prompt as the sole user message, streaming disabled, no
max-token cap. -/
def buildChatRequest (request : MorphEditRequest) : ChatRequest :=
  { model := MORPH_FAST_APPLY_MODEL
    messages := [{ role := "user", content := formatMorphPrompt request }]
    stream := false
    maxTokens := none }

/-- `response.choices[0]?.message?.content`: the guarded optional-chain
read of the first choice content. -/
def firstChoiceContent (response : ChatResponse) : Option String :=
  match response.choices.head? with
  | none => none
  | some choice =>
    match choice.message with
    | none => none
    | some msg => msg.content

/-- The wrapping performed by the `catch` block of `applyEdit` on a value
that is not a `MorphError`: a thrown `Error` contributes its message and
becomes the cause; a thrown non-`Error` value yields the `"Unknown error"`
message and no cause. -/
def wrapTransportFailure : TransportFailure → MorphError
  | .thrown e => ⟨"Morph API request failed: " ++ e.message, some e⟩
  | .thrownNonError => ⟨"Morph API request failed: Unknown error", none⟩

/-- The observable outcome of one `applyEdit` call: its returned value or
raised error, whether a remote request was issued, which request was sent,
and whether the soft marker check warned. -/
structure ApplyEditOutcome where
  result : Except MorphError String
  remoteCalled : Bool
  sentRequest : Option ChatRequest
  warned : Bool
  deriving Repr

/-- `MorphService.applyEdit`. Validation runs first; only if it passes is
the single remote request issued. A `MorphError` raised inside the `try`
(validation failure or empty response) is re-raised unchanged by the
`catch`; a transport failure is wrapped via `wrapTransportFailure`. -/
def applyEdit (request : MorphEditRequest) (transport : Transport) : ApplyEditOutcome :=
  match validateEditRequest request with
  | .error e =>
    { result := .error e, remoteCalled := false, sentRequest := none, warned := false }
  | .ok warned =>
    let chatRequest := buildChatRequest request
    match transport chatRequest with
    | .error failure =>
      { result := .error (wrapTransportFailure failure), remoteCalled := true,
        sentRequest := some chatRequest, warned := warned }
    | .ok response =>
      match firstChoiceContent response with
      | none =>
        { result := .error EMPTY_RESPONSE_ERROR, remoteCalled := true,
          sentRequest := some chatRequest, warned := warned }
      | some mergedCode =>
        if mergedCode = "" then
          { result := .error EMPTY_RESPONSE_ERROR, remoteCalled := true,
            sentRequest := some chatRequest, warned := warned }
        else
          { result := .ok mergedCode, remoteCalled := true,
            sentRequest := some chatRequest, warned := warned }

/-- The fixed minimal test request issued by `validateApiKey`. -/
def morphTestRequest : ChatRequest :=
  { model := MORPH_FAST_APPLY_MODEL
    messages :=
      [⟨"user", "<instruction>test</instruction>\n<code>test</code>\n<update>test</update>"⟩]
    stream := false
    maxTokens := some 1 }

/-- `MorphService.validateApiKey`: issues the minimal test request and
collapses any failure to `false`. Totality of this function models that
it never raises an error to the caller. -/
def validateApiKey (transport : Transport) : Bool :=
  match transport morphTestRequest with
  | .ok _ => true
  | .error _ => false

/-- The spec classifies a raised `MorphError` as a `ValidationError` when
it comes from one of the three hard checks of `validateEditRequest`. -/
def isValidationError (e : MorphError) : Bool :=
  (e.message == INSTRUCTIONS_ERROR_MESSAGE ||
   e.message == ORIGINAL_CONTENT_ERROR_MESSAGE ||
   e.message == CODE_EDIT_ERROR_MESSAGE) && e.cause.isNone

/-- The adapter state built by the `MorphService` constructor: the stored
config (with the timeout resolved via `?? DEFAULT_MORPH_TIMEOUT_MS`) and
the `OpenAI` client configuration derived from it. -/
structure MorphService where
  config : MorphServiceConfig
  client : OpenAIClientConfig
  deriving Repr, DecidableEq

/-- The `MorphService` constructor: stores the config with
`timeout: config.timeout ?? DEFAULT_MORPH_TIMEOUT_MS` and builds the
`OpenAI` client from `apiKey`, `baseUrl` and the resolved timeout. -/
def MorphService.make (config : MorphServiceConfig) : MorphService :=
  let resolvedTimeout := config.timeout.getD DEFAULT_MORPH_TIMEOUT_MS
  { config := { apiKey := config.apiKey, baseUrl := config.baseUrl,
                timeout := some resolvedTimeout }
    client := { apiKey := config.apiKey, baseURL := config.baseUrl,
                timeout := some resolvedTimeout } }

/-- The slice of `CacheService` read by `index.ts`: the `morphEnabled`
global-state flag, the `morphApiKey` secret and the `morphBaseUrl`
global-state string, each possibly absent. -/
structure CacheService where
  morphEnabled : Option Bool
  morphApiKey : Option String
  morphBaseUrl : Option String
  deriving Repr, DecidableEq

/-- JavaScript truthiness of a possibly-absent boolean. -/
def jsTruthyOptBool : Option Bool → Bool
  | some b => b
  | none => false

/-- JavaScript truthiness of a possibly-absent string: truthy iff present
and non-empty. -/
def jsTruthyOptString : Option String → Bool
  | some s => s != ""
  | none => false

/-- JavaScript `value || fallback` on a possibly-absent string. -/
def jsOrElseString (value : Option String) (fallback : String) : String :=
  match value with
  | some s => if s = "" then fallback else s
  | none => fallback

/-- `createMorphService` from `index.ts`: `null` when the feature flag or
the API key is falsy, otherwise a `MorphService` built from the cached
configuration with the base URL defaulted. -/
def createMorphService (cacheService : CacheService) : Option MorphService :=
  if !(jsTruthyOptBool cacheService.morphEnabled) ||
     !(jsTruthyOptString cacheService.morphApiKey) then
    none
  else
    some (MorphService.make
      { apiKey := cacheService.morphApiKey.getD ""
        baseUrl := jsOrElseString cacheService.morphBaseUrl DEFAULT_MORPH_BASE_URL
        timeout := none })

/-- `isMorphAvailable` from `index.ts`: `Boolean(morphEnabled && morphApiKey)`. -/
def isMorphAvailable (cacheService : CacheService) : Bool :=
  jsTruthyOptBool cacheService.morphEnabled &&
    jsTruthyOptString cacheService.morphApiKey

/-- Does an `applyEdit` result fail with a `ValidationError` (in the
spec's classification of the raised `MorphError`)? -/
def resultIsValidationError : Except MorphError String → Bool
  | .error e => isValidationError e
  | .ok _ => false

/-- Is an `Except` result a success? -/
def exceptIsOk {ε α : Type} : Except ε α → Bool
  | .ok _ => true
  | .error _ => false

/-! ## Helper lemmas about `validateEditRequest` and `applyEdit` -/

theorem validateEditRequest_error_instructions {request : MorphEditRequest}
    (h : optTrimNonempty request.instructions = false) :
    validateEditRequest request = Except.error ⟨INSTRUCTIONS_ERROR_MESSAGE, none⟩ := by
  unfold validateEditRequest
  simp [h]

theorem validateEditRequest_error_originalContent {request : MorphEditRequest}
    (hi : optTrimNonempty request.instructions = true)
    (ho : request.originalContent = none) :
    validateEditRequest request = Except.error ⟨ORIGINAL_CONTENT_ERROR_MESSAGE, none⟩ := by
  unfold validateEditRequest
  simp [hi, ho]

theorem validateEditRequest_error_codeEdit {request : MorphEditRequest}
    (hi : optTrimNonempty request.instructions = true)
    (ho : request.originalContent ≠ none)
    (hc : optTrimNonempty request.codeEdit = false) :
    validateEditRequest request = Except.error ⟨CODE_EDIT_ERROR_MESSAGE, none⟩ := by
  unfold validateEditRequest
  simp [hi, ho, hc]

theorem validateEditRequest_ok_eq {request : MorphEditRequest}
    (hi : optTrimNonempty request.instructions = true)
    (ho : request.originalContent ≠ none)
    (hc : optTrimNonempty request.codeEdit = true) :
    validateEditRequest request =
      Except.ok (!hasLazyEditMarker (jsInterp request.codeEdit) &&
        decide (0 < (jsInterp request.originalContent).length)) := by
  unfold validateEditRequest
  simp only [hi, ho, hc]
  by_cases hm : hasLazyEditMarker (jsInterp request.codeEdit) <;>
    by_cases hl : 0 < (jsInterp request.originalContent).length <;>
    simp [hm, hl]

theorem applyEdit_of_validation_error {request : MorphEditRequest} {transport : Transport}
    {e : MorphError} (h : validateEditRequest request = Except.error e) :
    applyEdit request transport =
      { result := Except.error e, remoteCalled := false, sentRequest := none,
        warned := false } := by
  unfold applyEdit
  rw [h]

theorem applyEdit_of_transport_error {request : MorphEditRequest} {transport : Transport}
    {warned : Bool} {failure : TransportFailure}
    (hval : validateEditRequest request = Except.ok warned)
    (htr : transport (buildChatRequest request) = Except.error failure) :
    applyEdit request transport =
      { result := Except.error (wrapTransportFailure failure), remoteCalled := true,
        sentRequest := some (buildChatRequest request), warned := warned } := by
  unfold applyEdit
  rw [hval]
  simp only [htr]

theorem applyEdit_of_empty_content {request : MorphEditRequest} {transport : Transport}
    {warned : Bool} {response : ChatResponse}
    (hval : validateEditRequest request = Except.ok warned)
    (htr : transport (buildChatRequest request) = Except.ok response)
    (hc : (firstChoiceContent response).getD "" = "") :
    applyEdit request transport =
      { result := Except.error EMPTY_RESPONSE_ERROR, remoteCalled := true,
        sentRequest := some (buildChatRequest request), warned := warned } := by
  unfold applyEdit
  rw [hval]
  rcases hfc : firstChoiceContent response with _ | s
  · simp only [htr, hfc]
  · rw [hfc] at hc
    simp only [Option.getD_some] at hc
    simp only [htr, hfc, hc, if_pos]

theorem applyEdit_of_nonempty_content {request : MorphEditRequest} {transport : Transport}
    {warned : Bool} {response : ChatResponse} {s : String}
    (hval : validateEditRequest request = Except.ok warned)
    (htr : transport (buildChatRequest request) = Except.ok response)
    (hc : firstChoiceContent response = some s) (hs : s ≠ "") :
    applyEdit request transport =
      { result := Except.ok s, remoteCalled := true,
        sentRequest := some (buildChatRequest request), warned := warned } := by
  unfold applyEdit
  rw [hval]
  simp [htr, hc, hs]

theorem applyEdit_flags_of_ok {request : MorphEditRequest} {transport : Transport}
    {warned : Bool} (hval : validateEditRequest request = Except.ok warned) :
    (applyEdit request transport).remoteCalled = true ∧
    (applyEdit request transport).sentRequest = some (buildChatRequest request) ∧
    (applyEdit request transport).warned = warned := by
  cases htr : transport (buildChatRequest request) with
  | error f =>
    rw [applyEdit_of_transport_error hval htr]
    exact ⟨rfl, rfl, rfl⟩
  | ok response =>
    rcases hfc : firstChoiceContent response with _ | s
    · rw [applyEdit_of_empty_content hval htr (by simp [hfc])]
      exact ⟨rfl, rfl, rfl⟩
    · by_cases hs : s = ""
      · rw [applyEdit_of_empty_content hval htr (by simp [hfc, hs])]
        exact ⟨rfl, rfl, rfl⟩
      · rw [applyEdit_of_nonempty_content hval htr hfc hs]
        exact ⟨rfl, rfl, rfl⟩

/-! ## Claim theorems -/

/-- C1: for every request whose `instructions` field is empty or
whitespace-only after trimming, and for every request whose `codeEdit`
field is empty or whitespace-only after trimming, `applyEdit` fails with a
`ValidationError` and issues no remote call — the validation failure
occurs before any request is sent to the transport. -/
theorem applyEdit_rejects_blank_fields_without_remote_call
    (request : MorphEditRequest) (transport : Transport)
    (h : (∃ s, request.instructions = some s ∧ jsTrim s = "") ∨
         (∃ s, request.codeEdit = some s ∧ jsTrim s = "")) :
    resultIsValidationError (applyEdit request transport).result = true ∧
    (applyEdit request transport).remoteCalled = false ∧
    (applyEdit request transport).sentRequest = none := by
  have herr : ∃ e, validateEditRequest request = Except.error e ∧
      isValidationError e = true := by
    cases hb : optTrimNonempty request.instructions with
    | false => exact ⟨_, validateEditRequest_error_instructions hb, rfl⟩
    | true =>
      by_cases ho : request.originalContent = none
      · exact ⟨_, validateEditRequest_error_originalContent hb ho, rfl⟩
      · rcases h with ⟨s, hs, ht⟩ | ⟨s, hs, ht⟩
        · rw [hs] at hb
          simp [optTrimNonempty, ht] at hb
        · have hc : optTrimNonempty request.codeEdit = false := by
            rw [hs]
            simp [optTrimNonempty, ht]
          exact ⟨_, validateEditRequest_error_codeEdit hb ho hc, rfl⟩
  rcases herr with ⟨e, he, hve⟩
  rw [applyEdit_of_validation_error he]
  exact ⟨hve, rfl, rfl⟩

/-- Witness for C1: a request with whitespace-only instructions is
rejected without a remote call. -/
theorem applyEdit_rejects_blank_fields_without_remote_call_witness :
    resultIsValidationError (applyEdit ⟨some "   ", some "x", some "edit"⟩
        (fun _ => Except.error TransportFailure.thrownNonError)).result = true ∧
    (applyEdit ⟨some "   ", some "x", some "edit"⟩
        (fun _ => Except.error TransportFailure.thrownNonError)).remoteCalled = false ∧
    (applyEdit ⟨some "   ", some "x", some "edit"⟩
        (fun _ => Except.error TransportFailure.thrownNonError)).sentRequest = none :=
  applyEdit_rejects_blank_fields_without_remote_call _ _ (Or.inl ⟨"   ", rfl, rfl⟩)

/-- C2: for every valid request, when the remote response's first choice
carries non-empty message content `X`, `applyEdit` returns exactly `X`
(the second conjunct plus the first rule out the error); and `applyEdit`
fails with `EmptyResponseError` if and only if the remote call succeeds
but the first choice's message content is empty or absent (`getD "" = ""`
states exactly that the content is `none` or `some ""`). -/
theorem applyEdit_first_choice_content_contract
    (request : MorphEditRequest) (transport : Transport)
    (warned : Bool) (response : ChatResponse)
    (hval : validateEditRequest request = Except.ok warned)
    (htr : transport (buildChatRequest request) = Except.ok response) :
    ((applyEdit request transport).result = Except.error EMPTY_RESPONSE_ERROR ↔
       (firstChoiceContent response).getD "" = "") ∧
    ((applyEdit request transport).result =
       Except.ok ((firstChoiceContent response).getD "") ∨
     (applyEdit request transport).result = Except.error EMPTY_RESPONSE_ERROR) := by
  rcases hfc : firstChoiceContent response with _ | s
  · rw [applyEdit_of_empty_content hval htr (by simp [hfc])]
    simp [hfc]
  · by_cases hs : s = ""
    · rw [applyEdit_of_empty_content hval htr (by simp [hfc, hs])]
      simp [hfc, hs]
    · rw [applyEdit_of_nonempty_content hval htr hfc hs]
      simp [hfc, hs]

/-- Witness for C2: a valid request with a remote response carrying
content `"X"` yields exactly `"X"`. -/
theorem applyEdit_first_choice_content_contract_witness :
    ((applyEdit ⟨some "i", some "", some "// ... existing code ..."⟩
        (fun _ => Except.ok ⟨[⟨some ⟨some "X"⟩⟩]⟩)).result =
          Except.error EMPTY_RESPONSE_ERROR ↔
       (firstChoiceContent ⟨[⟨some ⟨some "X"⟩⟩]⟩).getD "" = "") ∧
    ((applyEdit ⟨some "i", some "", some "// ... existing code ..."⟩
        (fun _ => Except.ok ⟨[⟨some ⟨some "X"⟩⟩]⟩)).result =
          Except.ok ((firstChoiceContent ⟨[⟨some ⟨some "X"⟩⟩]⟩).getD "") ∨
     (applyEdit ⟨some "i", some "", some "// ... existing code ..."⟩
        (fun _ => Except.ok ⟨[⟨some ⟨some "X"⟩⟩]⟩)).result =
          Except.error EMPTY_RESPONSE_ERROR) :=
  applyEdit_first_choice_content_contract _ _ false _ rfl rfl

/-- C3: every error raised by the transport or the remote side during
`applyEdit` makes `applyEdit` fail with a `RequestFailedError` carrying
the original error as its cause; and every domain error raised internally
(a `ValidationError` from `validateEditRequest`, or the
`EmptyResponseError`) is re-raised unchanged, never wrapped a second
time. -/
theorem applyEdit_wraps_transport_errors_preserves_domain_errors
    (request1 request2 request3 : MorphEditRequest)
    (transport1 transport2 transport3 : Transport)
    (warned1 warned3 : Bool) (e : JsError) (domainError : MorphError)
    (response3 : ChatResponse)
    (hval1 : validateEditRequest request1 = Except.ok warned1)
    (htr1 : transport1 (buildChatRequest request1) =
      Except.error (TransportFailure.thrown e))
    (hval2 : validateEditRequest request2 = Except.error domainError)
    (hval3 : validateEditRequest request3 = Except.ok warned3)
    (htr3 : transport3 (buildChatRequest request3) = Except.ok response3)
    (hfc3 : (firstChoiceContent response3).getD "" = "") :
    (applyEdit request1 transport1).result =
      Except.error ⟨"Morph API request failed: " ++ e.message, some e⟩ ∧
    (applyEdit request2 transport2).result = Except.error domainError ∧
    (applyEdit request3 transport3).result = Except.error EMPTY_RESPONSE_ERROR := by
  rw [applyEdit_of_transport_error hval1 htr1,
    applyEdit_of_validation_error hval2,
    applyEdit_of_empty_content hval3 htr3 hfc3]
  exact ⟨rfl, rfl, rfl⟩

/-- Witness for C3: a transport error `"boom"` is wrapped with itself as
cause; a concrete validation error and the empty-response error pass
through unchanged. -/
theorem applyEdit_wraps_transport_errors_preserves_domain_errors_witness :
    (applyEdit ⟨some "i", some "", some "// ... existing code ..."⟩
        (fun _ => Except.error (TransportFailure.thrown ⟨"boom"⟩))).result =
      Except.error ⟨"Morph API request failed: " ++ JsError.message ⟨"boom"⟩,
        some ⟨"boom"⟩⟩ ∧
    (applyEdit ⟨some " ", some "x", some "edit"⟩
        (fun _ => Except.error TransportFailure.thrownNonError)).result =
      Except.error ⟨INSTRUCTIONS_ERROR_MESSAGE, none⟩ ∧
    (applyEdit ⟨some "i", some "", some "// ... existing code ..."⟩
        (fun _ => Except.ok ⟨[]⟩)).result = Except.error EMPTY_RESPONSE_ERROR :=
  applyEdit_wraps_transport_errors_preserves_domain_errors
    ⟨some "i", some "", some "// ... existing code ..."⟩
    ⟨some " ", some "x", some "edit"⟩
    ⟨some "i", some "", some "// ... existing code ..."⟩
    (fun _ => Except.error (TransportFailure.thrown ⟨"boom"⟩))
    (fun _ => Except.error TransportFailure.thrownNonError)
    (fun _ => Except.ok ⟨[]⟩)
    false false ⟨"boom"⟩ ⟨INSTRUCTIONS_ERROR_MESSAGE, none⟩ ⟨[]⟩
    rfl rfl rfl rfl rfl rfl

/-- C4: the prompt sent as the sole user message is exactly the
concatenation
`<instruction>{instructions}</instruction>\n<code>{originalContent}</code>\n<update>{codeEdit}</update>`,
each field inserted verbatim with no escaping; whenever `applyEdit` sends
anything, it sends exactly that request; and at
instructions `"add logging"`, originalContent `"a"`,
codeEdit `"// ... existing code ...\nb"` the prompt matches the template
byte for byte. -/
theorem formatMorphPrompt_exact_concatenation
    (i o c : String) (request : MorphEditRequest) (transport : Transport) :
    formatMorphPrompt ⟨some i, some o, some c⟩ =
      "<instruction>" ++ i ++ "</instruction>\n<code>" ++ o ++ "</code>\n<update>" ++
        c ++ "</update>" ∧
    (buildChatRequest ⟨some i, some o, some c⟩).messages =
      [⟨"user", formatMorphPrompt ⟨some i, some o, some c⟩⟩] ∧
    ((applyEdit request transport).sentRequest = none ∨
      (applyEdit request transport).sentRequest = some (buildChatRequest request)) ∧
    formatMorphPrompt ⟨some "add logging", some "a", some "// ... existing code ...\nb"⟩ =
      "<instruction>add logging</instruction>\n<code>a</code>\n<update>// ... existing code ...\nb</update>" := by
  refine ⟨rfl, rfl, ?_, rfl⟩
  cases hval : validateEditRequest request with
  | error e =>
    rw [applyEdit_of_validation_error hval]
    exact Or.inl rfl
  | ok warned =>
    exact Or.inr (applyEdit_flags_of_ok hval).2.1

/-- C5: `validateApiKey` returns `true` exactly when the single minimal
remote call succeeds, and `false` for every failure of any kind; being a
total function into `Bool`, it never raises an error to the caller. -/
theorem validateApiKey_iff_call_succeeds (transport : Transport) :
    (validateApiKey transport = true ↔
      ∃ response, transport morphTestRequest = Except.ok response) ∧
    (validateApiKey transport = false ↔
      ∃ failure, transport morphTestRequest = Except.error failure) := by
  unfold validateApiKey
  cases h : transport morphTestRequest with
  | error f => simp [h]
  | ok r => simp [h]

/-- C6: a request with `originalContent` equal to the empty string and
valid `instructions` and `codeEdit` is accepted by `applyEdit`'s
validation (new-file creation) and proceeds to the remote call, while a
request whose `originalContent` is absent (`undefined`/`null`) fails with
a `ValidationError` and issues no remote call. -/
theorem applyEdit_accepts_empty_originalContent_rejects_absent
    (i c : String) (transport : Transport)
    (hi : jsTrim i ≠ "") (hc : jsTrim c ≠ "") :
    exceptIsOk (validateEditRequest ⟨some i, some "", some c⟩) = true ∧
    (applyEdit ⟨some i, some "", some c⟩ transport).remoteCalled = true ∧
    validateEditRequest ⟨some i, none, some c⟩ =
      Except.error ⟨ORIGINAL_CONTENT_ERROR_MESSAGE, none⟩ ∧
    resultIsValidationError (applyEdit ⟨some i, none, some c⟩ transport).result = true ∧
    (applyEdit ⟨some i, none, some c⟩ transport).remoteCalled = false := by
  have hi2 : optTrimNonempty (some i) = true := by simp [optTrimNonempty, hi]
  have hc2 : optTrimNonempty (some c) = true := by simp [optTrimNonempty, hc]
  have hval1 : validateEditRequest ⟨some i, some "", some c⟩ =
      Except.ok (!hasLazyEditMarker (jsInterp (some c)) &&
        decide (0 < (jsInterp (some "")).length)) :=
    validateEditRequest_ok_eq hi2 (by simp) hc2
  have hval2 : validateEditRequest ⟨some i, none, some c⟩ =
      Except.error ⟨ORIGINAL_CONTENT_ERROR_MESSAGE, none⟩ :=
    validateEditRequest_error_originalContent hi2 rfl
  refine ⟨by rw [hval1]; rfl, (applyEdit_flags_of_ok hval1).1, hval2, ?_, ?_⟩
  · rw [applyEdit_of_validation_error hval2]
    rfl
  · rw [applyEdit_of_validation_error hval2]

/-- Witness for C6 at concrete valid instructions and code edit. -/
theorem applyEdit_accepts_empty_originalContent_rejects_absent_witness :
    exceptIsOk (validateEditRequest
      ⟨some "i", some "", some "// ... existing code ..."⟩) = true ∧
    (applyEdit ⟨some "i", some "", some "// ... existing code ..."⟩
        (fun _ => Except.error TransportFailure.thrownNonError)).remoteCalled = true ∧
    validateEditRequest ⟨some "i", none, some "// ... existing code ..."⟩ =
      Except.error ⟨ORIGINAL_CONTENT_ERROR_MESSAGE, none⟩ ∧
    resultIsValidationError (applyEdit ⟨some "i", none, some "// ... existing code ..."⟩
        (fun _ => Except.error TransportFailure.thrownNonError)).result = true ∧
    (applyEdit ⟨some "i", none, some "// ... existing code ..."⟩
        (fun _ => Except.error TransportFailure.thrownNonError)).remoteCalled = false :=
  applyEdit_accepts_empty_originalContent_rejects_absent "i" "// ... existing code ..."
    (fun _ => Except.error TransportFailure.thrownNonError) (by decide) (by decide)

/-- C7: for every otherwise-valid request, the soft marker check warns
exactly when `codeEdit` contains none of the three literal sparse-edit
marker spellings and `originalContent` is non-empty, and in every case
`applyEdit` still proceeds to issue the remote call — the marker check
never causes a failure. -/
theorem applyEdit_marker_check_warns_but_proceeds
    (i o c : String) (transport : Transport)
    (hi : jsTrim i ≠ "") (hc : jsTrim c ≠ "") :
    ((applyEdit ⟨some i, some o, some c⟩ transport).warned = true ↔
      (hasLazyEditMarker c = false ∧ 0 < o.length)) ∧
    (applyEdit ⟨some i, some o, some c⟩ transport).remoteCalled = true := by
  have hi2 : optTrimNonempty (some i) = true := by simp [optTrimNonempty, hi]
  have hc2 : optTrimNonempty (some c) = true := by simp [optTrimNonempty, hc]
  have hval : validateEditRequest ⟨some i, some o, some c⟩ =
      Except.ok (!hasLazyEditMarker (jsInterp (some c)) &&
        decide (0 < (jsInterp (some o)).length)) :=
    validateEditRequest_ok_eq hi2 (by simp) hc2
  obtain ⟨hrc, -, hw⟩ := @applyEdit_flags_of_ok _ transport _ hval
  refine ⟨?_, hrc⟩
  rw [hw]
  simp [jsInterp]

/-- Witness for C7: a marker-free edit of a non-empty file warns and
still issues the remote call. -/
theorem applyEdit_marker_check_warns_but_proceeds_witness :
    ((applyEdit ⟨some "i", some "abc", some "plain edit"⟩
        (fun _ => Except.error TransportFailure.thrownNonError)).warned = true ↔
      (hasLazyEditMarker "plain edit" = false ∧ 0 < "abc".length)) ∧
    (applyEdit ⟨some "i", some "abc", some "plain edit"⟩
        (fun _ => Except.error TransportFailure.thrownNonError)).remoteCalled = true :=
  applyEdit_marker_check_warns_but_proceeds "i" "abc" "plain edit"
    (fun _ => Except.error TransportFailure.thrownNonError) (by decide) (by decide)

/-- C8: when the caller's configuration omits the timeout, the adapter's
effective timeout (both in the stored config and in the constructed
client) is 30000 milliseconds; and when the configuration store supplies
no base endpoint, `createMorphService` constructs the adapter with base
endpoint `https://api.morphllm.com/v1`. -/
theorem morphService_defaults (key url apiKey : String) (enabled : Option Bool)
    (hkey : apiKey ≠ "") (hen : jsTruthyOptBool enabled = true) :
    (MorphService.make ⟨key, url, none⟩).config.timeout = some 30000 ∧
    (MorphService.make ⟨key, url, none⟩).client.timeout = some 30000 ∧
    Option.map (fun service => service.config.baseUrl)
        (createMorphService ⟨enabled, some apiKey, none⟩) =
      some "https://api.morphllm.com/v1" := by
  refine ⟨rfl, rfl, ?_⟩
  unfold createMorphService
  simp [hen, jsTruthyOptString, hkey, jsOrElseString, MorphService.make,
    DEFAULT_MORPH_BASE_URL]

/-- Witness for C8 at a concrete enabled cache with a non-empty key. -/
theorem morphService_defaults_witness :
    (MorphService.make ⟨"k", "u", none⟩).config.timeout = some 30000 ∧
    (MorphService.make ⟨"k", "u", none⟩).client.timeout = some 30000 ∧
    Option.map (fun service => service.config.baseUrl)
        (createMorphService ⟨some true, some "k", none⟩) =
      some "https://api.morphllm.com/v1" :=
  morphService_defaults "k" "u" "k" (some true) (by decide) rfl

/-- C9: for every cache state, `isMorphAvailable` returns `true` exactly
when `createMorphService` returns a non-null service instance, and both
are decided by the same condition: the enabled flag is truthy and the
credential is a non-empty string. -/
theorem isMorphAvailable_iff_createMorphService_some (cacheService : CacheService) :
    (isMorphAvailable cacheService = true ↔
      (createMorphService cacheService).isSome = true) ∧
    (isMorphAvailable cacheService = true ↔
      (cacheService.morphEnabled = some true ∧
        ∃ key, cacheService.morphApiKey = some key ∧ key ≠ "")) := by
  obtain ⟨enabled, apiKey, baseUrl⟩ := cacheService
  unfold isMorphAvailable createMorphService
  rcases enabled with _ | b
  · simp [jsTruthyOptBool]
  · rcases apiKey with _ | k
    · cases b <;> simp [jsTruthyOptBool, jsTruthyOptString]
    · by_cases hk : k = "" <;> cases b <;>
        simp [jsTruthyOptBool, jsTruthyOptString, hk]

/-- C10: for every remote response with zero choices, or whose first
choice lacks a message, the optional-chain access in `applyEdit` is
guarded — modelled by `firstChoiceContent` being total — and `applyEdit`
fails with the empty-response domain error after having issued the
remote call. -/
theorem applyEdit_guarded_on_missing_choice_or_message
    (request : MorphEditRequest) (transport : Transport)
    (warned : Bool) (response : ChatResponse)
    (hval : validateEditRequest request = Except.ok warned)
    (htr : transport (buildChatRequest request) = Except.ok response)
    (h : response.choices = [] ∨
      ∃ choice rest, response.choices = choice :: rest ∧ choice.message = none) :
    (applyEdit request transport).result = Except.error EMPTY_RESPONSE_ERROR ∧
    (applyEdit request transport).remoteCalled = true := by
  have hfc : firstChoiceContent response = none := by
    unfold firstChoiceContent
    rcases h with h0 | ⟨choice, rest, hcr, hm⟩
    · simp [h0]
    · simp [hcr, hm]
  rw [applyEdit_of_empty_content hval htr (by simp [hfc])]
  exact ⟨rfl, rfl⟩

/-- Witness for C10: a zero-choice response yields the empty-response
error after the remote call. -/
theorem applyEdit_guarded_on_missing_choice_or_message_witness :
    (applyEdit ⟨some "i", some "", some "// ... existing code ..."⟩
        (fun _ => Except.ok ⟨[]⟩)).result = Except.error EMPTY_RESPONSE_ERROR ∧
    (applyEdit ⟨some "i", some "", some "// ... existing code ..."⟩
        (fun _ => Except.ok ⟨[]⟩)).remoteCalled = true :=
  applyEdit_guarded_on_missing_choice_or_message
    ⟨some "i", some "", some "// ... existing code ..."⟩
    (fun _ => Except.ok ⟨[]⟩) false ⟨[]⟩ rfl rfl (Or.inl rfl)

end Morph
